import Mathlib

/-
Verification of the conversation-visualization core of the a2a frontend.

The geometry layer (polarToVec3, lerp, vec3Lerp, bezier3, orbMid1/orbMid2,
messageOrb, useCircleLayout) is a shallow embedding of the helpers at the top
of the 3D animation component and of the MessageOrb rendering logic, with JS
numbers modelled as real numbers.

The state layer (AppState, handleWebSocketMessage, onSocketMessage,
startConversation, the speech-bubble timer system and the usePlayback clock)
is a shallow embedding of the React state updates in the animation component
and in the playback hook, with wall-clock seconds modelled as rationals and
each event handler modelled as an explicit state-passing function.
-/

namespace A2A

noncomputable section

/-- Tau constant from the source: `const TAU = Math.PI * 2`. -/
def TAU : ℝ := Real.pi * 2

/-- A 3D point, mirroring `type Vec3 = [number, number, number]`. -/
abbrev Vec3 : Type := ℝ × ℝ × ℝ

/-- Embedding of `polarToVec3(r, angle, y) = [Math.cos(angle) * r, y, Math.sin(angle) * r]`.
The source defaults `y` to 0; call sites here pass 0 explicitly. -/
def polarToVec3 (r angle y : ℝ) : Vec3 :=
  (Real.cos angle * r, y, Real.sin angle * r)

/-- Embedding of `lerp(a, b, t) = a + (b - a) * t`. -/
def lerp (a b t : ℝ) : ℝ := a + (b - a) * t

/-- Embedding of `vec3Lerp`, componentwise `lerp`. -/
def vec3Lerp (a b : Vec3) (t : ℝ) : Vec3 :=
  (lerp a.1 b.1 t, lerp a.2.1 b.2.1 t, lerp a.2.2 b.2.2 t)

/-- Embedding of `bezier3`: the De Casteljau evaluation of the cubic Bezier
curve on control points `a b c d` at parameter `t`. -/
def bezier3 (a b c d : Vec3) (t : ℝ) : Vec3 :=
  let ab := vec3Lerp a b t
  let bc := vec3Lerp b c t
  let cd := vec3Lerp c d t
  let abbc := vec3Lerp ab bc t
  let bccd := vec3Lerp bc cd t
  vec3Lerp abbc bccd t

/-- First inner control point of a message orb, from `MessageOrb`:
`mid1 = [(fromPos[0] * 2 + toPos[0]) / 3, height, (fromPos[2] * 2 + toPos[2]) / 3]`. -/
def orbMid1 (fromPos toPos : Vec3) (height : ℝ) : Vec3 :=
  ((fromPos.1 * 2 + toPos.1) / 3, height, (fromPos.2.2 * 2 + toPos.2.2) / 3)

/-- Second inner control point of a message orb, from `MessageOrb`:
`mid2 = [(fromPos[0] + toPos[0] * 2) / 3, height, (fromPos[2] + toPos[2] * 2) / 3]`. -/
def orbMid2 (fromPos toPos : Vec3) (height : ℝ) : Vec3 :=
  ((fromPos.1 + toPos.1 * 2) / 3, height, (fromPos.2.2 + toPos.2.2 * 2) / 3)

/-- Embedding of the `MessageOrb` rendering decision: with
`tNorm = (now - bornAt) / duration`, the component returns `null` when
`tNorm < 0 || tNorm > 1` and otherwise renders the orb group at
`bezier3(fromPos, mid1, mid2, toPos, tNorm)`.  `none` stands for the
marker being absent, `some p` for the marker rendered at position `p`. -/
def messageOrb (fromPos toPos : Vec3) (bornAt duration height now : ℝ) : Option Vec3 :=
  let tNorm := (now - bornAt) / duration
  if tNorm < 0 ∨ tNorm > 1 then none
  else some (bezier3 fromPos (orbMid1 fromPos toPos height) (orbMid2 fromPos toPos height) toPos tNorm)

/-- Embedding of `useCircleLayout`: with `n = Math.max(agents.length, 1)`, agent
at index `i` is mapped to `polarToVec3(radius, (i / n) * TAU)`.  The JS `Map`
built by repeated `map.set` is modelled as the association list of
(identifier, position) pairs in roster order. -/
def useCircleLayout (agents : List String) (radius : ℝ) : List (String × Vec3) :=
  let n : ℕ := max agents.length 1
  agents.enum.map fun ia => (ia.2, polarToVec3 radius ((ia.1 : ℝ) / (n : ℝ) * TAU) 0)

end

/-- Connection state of the live feed adapter. -/
inductive ConnStatus where
  | connecting
  | connected
  | disconnected
deriving DecidableEq

/-- Embedding of the `Agent` record of the animation component.  The unused
optional `occupation` field of the source interface is omitted. -/
structure Agent where
  id : String
  name : String
  color : String
  emoji : String
  isActive : Bool
deriving DecidableEq

/-- Embedding of the `ConversationMessage` record; `timestamp` is wall-clock
seconds (`Date.now() / 1000`), modelled as a rational. -/
structure ConversationMessage where
  id : String
  speaker : String
  message : String
  timestamp : ℚ
  turnNumber : ℤ
deriving DecidableEq

/-- Embedding of the inbound `ConversationUpdate` payload. -/
structure ConversationUpdate where
  conversation_id : String
  speaker : String
  message : String
  turn_number : ℤ
  is_finished : Bool
deriving DecidableEq

/-- A structurally well-formed inbound socket payload: either a
`conversation_update` event or an event of some other recognized-shape type
(which the handler ignores). -/
inductive WsPayload where
  | conversationUpdate (u : ConversationUpdate)
  | otherType
deriving DecidableEq

/-- A raw socket frame as delivered to `websocket.onmessage`: either text that
parses to a structured payload, or malformed text on which `JSON.parse` throws. -/
inductive RawEvent where
  | wellFormed (p : WsPayload)
  | malformed (text : String)
deriving DecidableEq

/-- Result of `JSON.parse` on a raw frame: `none` models the parser throwing. -/
def parseEventData : RawEvent → Option WsPayload
  | .wellFormed p => some p
  | .malformed _ => none

/-- Observable component state touched by the socket handler and the
start-conversation flow of the animation component. -/
structure AppState where
  connectionStatus : ConnStatus
  isRunning : Bool
  messages : List ConversationMessage
  agents : List Agent
deriving DecidableEq

/-- Embedding of `handleWebSocketMessage`.  `nowSec` is the wall clock in
seconds read by `Date.now() / 1000` when the handler runs.  Events whose
`type` is not `conversation_update` are ignored; a `system` speaker clears the
running flag when `is_finished` and appends nothing; any other speaker appends
a message record with identifier `conversation_id + "_" + turn_number` and
recomputes every agent's activity flag as
`agent.name === update.speaker || agent.name === 'You'`. -/
def handleWebSocketMessage (s : AppState) (nowSec : ℚ) (data : WsPayload) : AppState :=
  match data with
  | .otherType => s
  | .conversationUpdate update =>
    if update.speaker = "system" then
      if update.is_finished then { s with isRunning := false } else s
    else
      let message : ConversationMessage :=
        { id := update.conversation_id ++ "_" ++ toString update.turn_number
          speaker := update.speaker
          message := update.message
          timestamp := nowSec
          turnNumber := update.turn_number }
      { s with
        messages := s.messages ++ [message]
        agents := s.agents.map fun agent =>
          { agent with isActive := agent.name == update.speaker || agent.name == "You" } }

/-- Embedding of the `websocket.onmessage` callback.  The callback body is
`handleWebSocketMessage(JSON.parse(event.data))`; when `JSON.parse` throws,
the exception unwinds the callback before any state field is written and is
absorbed by the host event loop, which keeps the socket open and keeps
delivering later frames, so the observable effect is the identity on state. -/
def onSocketMessage (s : AppState) (nowSec : ℚ) (raw : RawEvent) : AppState :=
  match parseEventData raw with
  | none => s
  | some data => handleWebSocketMessage s nowSec data

/-- A loaded profile; only the display name is read by the component. -/
structure Profile where
  name : String
deriving DecidableEq

/-- Lookup in the loaded `availableProfiles` mapping. -/
def lookupProfile (profiles : List (String × Profile)) (key : String) : Option Profile :=
  (profiles.find? fun p => p.1 == key).map Prod.snd

/-- Embedding of `startConversation`.  The guard returns unchanged state when
already running or not connected.  Otherwise the flow optimistically sets the
running flag, clears the message list, and (when the `person_alice` profile is
loaded) replaces the roster with the activated local user (renamed from the
`my_agent` profile, with the JS `||` falling back on an empty name) plus the
new partner agent - all before the HTTP request.  `requestOk` is the outcome
of the request; on failure the catch block only reverts the running flag.
The roster is never empty in the program (it is initialized with the local
user), so the empty-roster branch is unreachable and modelled as just the new
agent. -/
def startConversation (s : AppState) (availableProfiles : List (String × Profile))
    (requestOk : Bool) : AppState :=
  if s.isRunning || !(s.connectionStatus == .connected) then s
  else
    let s1 := { s with isRunning := true, messages := [] }
    let s2 :=
      match lookupProfile availableProfiles "person_alice" with
      | some targetProfile =>
        let newAgent : Agent :=
          { id := "person_alice", name := targetProfile.name, color := "#93C5FD"
            emoji := "🤖", isActive := true }
        { s1 with agents :=
            match s1.agents with
            | [] => [newAgent]
            | a0 :: _ =>
              let myName : String :=
                match lookupProfile availableProfiles "my_agent" with
                | some p => if p.name = "" then a0.name else p.name
                | none => a0.name
              [{ a0 with isActive := true, name := myName }, newAgent] }
      | none => s1
    if requestOk then s2 else { s2 with isRunning := false }

/-- A pending `setTimeout` clear scheduled by the bubble effect in `Scene`:
it fires 5 wall-clock seconds after the message arrived and its closure
captures the speaker of the message that scheduled it. -/
structure PendingClear where
  fireAt : ℚ
  speaker : String
deriving DecidableEq

/-- The bubble subsystem of `Scene`: the `agentMessages` record (speaker name
to displayed message, modelled as an association list with unique keys) plus
the set of pending clear timers. -/
structure BubbleState where
  agentMessages : List (String × String)
  timers : List PendingClear
deriving DecidableEq

/-- JS object update `{ ...prev, [key]: value }` on the agent-messages record. -/
def setAgentMessage (entries : List (String × String)) (key value : String) :
    List (String × String) :=
  if entries.any fun p => p.1 == key then
    entries.map fun p => if p.1 == key then (key, value) else p
  else entries ++ [(key, value)]

/-- JS `delete updated[key]` on the agent-messages record. -/
def deleteAgentMessage (entries : List (String × String)) (key : String) :
    List (String × String) :=
  entries.filter fun p => !(p.1 == key)

/-- Read of `agentMessages[key]`; `none` models an absent key. -/
def lookupAgentMessage (entries : List (String × String)) (key : String) : Option String :=
  (entries.find? fun p => p.1 == key).map Prod.snd

/-- Embedding of the `useEffect` body in `Scene` that runs when a new latest
message arrives: it writes the speaker's bubble and schedules an
unconditional clear via `setTimeout(..., 5000)`.  No timer handle is kept and
no `clearTimeout` exists anywhere in the component, so the previously
scheduled timers stay pending. -/
def bubbleOnNewMessage (st : BubbleState) (nowWall : ℚ) (speaker message : String) :
    BubbleState :=
  { agentMessages := setAgentMessage st.agentMessages speaker message
    timers := st.timers ++ [{ fireAt := nowWall + 5, speaker := speaker }] }

/-- Embedding of a scheduled clear firing: the callback deletes the entry for
the captured speaker unconditionally (it does not compare the displayed
message with the one that scheduled the timer). -/
def bubbleOnTimerFire (st : BubbleState) (timer : PendingClear) : BubbleState :=
  { agentMessages := deleteAgentMessage st.agentMessages timer.speaker
    timers := st.timers.erase timer }

/-- State of the `usePlayback` hook of the playback scene: the playing flag
and the current simulation time. -/
structure PlaybackState where
  playing : Bool
  time : ℚ
deriving DecidableEq

/-- Initial playback state: `useState(autoPlay)` and `useState(0)`. -/
def usePlaybackInit (autoPlay : Bool) : PlaybackState :=
  { playing := autoPlay, time := 0 }

/-- Embedding of the `useFrame` callback of `usePlayback`: when playing, the
time advances by `delta * speed` and is clamped at `duration`
(`next > duration ? duration : next`); when paused, nothing changes. -/
def playbackFrame (duration speed : ℚ) (st : PlaybackState) (delta : ℚ) : PlaybackState :=
  if st.playing then
    { st with time :=
        let next := st.time + delta * speed
        if next > duration then duration else next }
  else st

/-- Embedding of `seek(t) = setTime(Math.max(0, Math.min(duration, t)))`. -/
def playbackSeek (duration : ℚ) (st : PlaybackState) (t : ℚ) : PlaybackState :=
  { st with time := max 0 (min duration t) }

/-- Embedding of `play()`. -/
def playbackPlay (st : PlaybackState) : PlaybackState := { st with playing := true }

/-- Embedding of `pause()`. -/
def playbackPause (st : PlaybackState) : PlaybackState := { st with playing := false }

/-- The playback-clock invariant stated by the spec. -/
def timeInvariant (duration : ℚ) (st : PlaybackState) : Prop :=
  0 ≤ st.time ∧ st.time ≤ duration

/-- Embedding of the bubble width computation in `AgentAvatar`:
`Math.min(messageLength * 0.06 + 1.6, 5.8)`. -/
def bubbleWidth (messageLength : ℕ) : ℚ :=
  min ((messageLength : ℚ) * 0.06 + 1.6) 5.8

/-- Embedding of the bubble text rendering in `AgentAvatar`:
`currentMessage.length > 220 ? currentMessage.substring(0, 220) + '...' : currentMessage`. -/
def displayedBubbleText (currentMessage : String) : String :=
  if currentMessage.length > 220 then currentMessage.take 220 ++ "..." else currentMessage

/-- Sample local user agent, as initialized by the component. -/
def youAgent : Agent :=
  { id := "user", name := "You", color := "#FBBF24", emoji := "🧑", isActive := false }

/-- Sample partner agent with the activity flag off. -/
def aliceAgent : Agent :=
  { id := "person_alice", name := "Alice", color := "#93C5FD", emoji := "🤖", isActive := false }

/-- Sample third agent whose activity flag is on. -/
def bobAgent : Agent :=
  { id := "agent_bob", name := "Bob", color := "#A7F3D0", emoji := "🤖", isActive := true }

/-- Sample running state with a three-agent roster in which Bob is active. -/
def roster3State : AppState :=
  { connectionStatus := .connected, isRunning := true, messages := []
    agents := [youAgent, aliceAgent, bobAgent] }

/-- Sample conversation update spoken by Alice. -/
def aliceUpdate : ConversationUpdate :=
  { conversation_id := "conv1", speaker := "Alice", message := "hi", turn_number := 1
    is_finished := false }

/-- Sample system control event with the finished flag set. -/
def systemFinishedUpdate : ConversationUpdate :=
  { conversation_id := "conv1", speaker := "system", message := "", turn_number := 9
    is_finished := true }

/-- Sample idle connected state holding only the local user. -/
def baseState : AppState :=
  { connectionStatus := .connected, isRunning := false, messages := [], agents := [youAgent] }

/-- Sample loaded profiles containing both fixed profile ids. -/
def profilesSample : List (String × Profile) :=
  [("my_agent", { name := "Michael" }), ("person_alice", { name := "Alice" })]

/-- Empty bubble state. -/
def bubbleInit : BubbleState := { agentMessages := [], timers := [] }

/-- Bubble state after Alice speaks at wall time 0 and again at wall time 3. -/
def c3AfterTwoMessages : BubbleState :=
  bubbleOnNewMessage (bubbleOnNewMessage bubbleInit 0 "Alice" "hi") 3 "Alice" "hello again"

/-- Bubble state after the first (never cancelled) clear fires at wall time 5. -/
def c3AfterStaleTimer : BubbleState :=
  bubbleOnTimerFire c3AfterTwoMessages { fireAt := 5, speaker := "Alice" }

/-- A 221-character message, one character past the truncation threshold. -/
def longMessage : String := String.mk (List.replicate 221 'a')

/-- C8: a conversation_update event whose speaker is the sentinel "system" and
whose is_finished field is true clears the running flag to false and appends
no entry: the message sequence and the agent roster are unchanged. -/
theorem claim_C8_system_finished_event (s : AppState) (nowSec : ℚ) (u : ConversationUpdate)
    (hspeaker : u.speaker = "system") (hfin : u.is_finished = true) :
    handleWebSocketMessage s nowSec (.conversationUpdate u) = { s with isRunning := false } ∧
    (handleWebSocketMessage s nowSec (.conversationUpdate u)).messages = s.messages ∧
    (handleWebSocketMessage s nowSec (.conversationUpdate u)).agents = s.agents := by
  simp [handleWebSocketMessage, hspeaker, hfin]

/-- Witness for C8 at a concrete system-finished event. -/
theorem claim_C8_witness :
    handleWebSocketMessage roster3State 10 (.conversationUpdate systemFinishedUpdate) =
      { roster3State with isRunning := false } ∧
    (handleWebSocketMessage roster3State 10
        (.conversationUpdate systemFinishedUpdate)).messages = roster3State.messages ∧
    (handleWebSocketMessage roster3State 10
        (.conversationUpdate systemFinishedUpdate)).agents = roster3State.agents :=
  claim_C8_system_finished_event roster3State 10 systemFinishedUpdate rfl rfl

/-- Counterexample to C9 as stated: in a roster where Bob's activity flag is
true, processing a conversation_update spoken by Alice flips Bob's flag to
false, so an other agent's activity flag is not left untouched. -/
theorem claim_C9_counterexample :
    roster3State.agents.map Agent.isActive = [false, false, true] ∧
    (handleWebSocketMessage roster3State 10 (.conversationUpdate aliceUpdate)).agents.map
        Agent.isActive = [true, true, false] := by
  exact ⟨rfl, rfl⟩

/-- C9 (amended): a non-system conversation_update appends a message record
whose identifier is conversation_id ++ "_" ++ turn_number, and recomputes
every agent's activity flag: exactly the named speaker and the local user
"You" end up active and every other agent ends up inactive (so an other
agent's flag keeps its value only when it was already false, as for Bob in
the spec's two-agent scenario). -/
theorem claim_C9_amended_nonsystem_event (s : AppState) (nowSec : ℚ) (u : ConversationUpdate)
    (hspeaker : ¬u.speaker = "system") :
    (handleWebSocketMessage s nowSec (.conversationUpdate u)).messages =
      s.messages ++ [{ id := u.conversation_id ++ "_" ++ toString u.turn_number
                       speaker := u.speaker
                       message := u.message
                       timestamp := nowSec
                       turnNumber := u.turn_number }] ∧
    (handleWebSocketMessage s nowSec (.conversationUpdate u)).agents.length =
      s.agents.length ∧
    (∀ a ∈ (handleWebSocketMessage s nowSec (.conversationUpdate u)).agents,
      a.isActive = true ↔ (a.name = u.speaker ∨ a.name = "You")) ∧
    (∀ a ∈ s.agents,
      { a with isActive := a.name == u.speaker || a.name == "You" } ∈
        (handleWebSocketMessage s nowSec (.conversationUpdate u)).agents) := by
  have hmain : handleWebSocketMessage s nowSec (.conversationUpdate u) =
      { s with
        messages := s.messages ++
          [{ id := u.conversation_id ++ "_" ++ toString u.turn_number
             speaker := u.speaker
             message := u.message
             timestamp := nowSec
             turnNumber := u.turn_number }]
        agents := s.agents.map fun agent =>
          { agent with isActive := agent.name == u.speaker || agent.name == "You" } } := by
    simp [handleWebSocketMessage, hspeaker]
  rw [hmain]
  refine ⟨rfl, by simp, ?_, ?_⟩
  · intro a ha
    simp only [List.mem_map] at ha
    obtain ⟨b, _, rfl⟩ := ha
    simp
  · intro a ha
    exact List.mem_map_of_mem _ ha

/-- Witness for the amended C9 at a concrete roster and event. -/
theorem claim_C9_witness :
    (handleWebSocketMessage roster3State 10 (.conversationUpdate aliceUpdate)).messages =
      roster3State.messages ++
        [{ id := aliceUpdate.conversation_id ++ "_" ++ toString aliceUpdate.turn_number
           speaker := aliceUpdate.speaker
           message := aliceUpdate.message
           timestamp := 10
           turnNumber := aliceUpdate.turn_number }] ∧
    (handleWebSocketMessage roster3State 10 (.conversationUpdate aliceUpdate)).agents.length =
      roster3State.agents.length ∧
    (∀ a ∈ (handleWebSocketMessage roster3State 10 (.conversationUpdate aliceUpdate)).agents,
      a.isActive = true ↔ (a.name = aliceUpdate.speaker ∨ a.name = "You")) ∧
    (∀ a ∈ roster3State.agents,
      { a with isActive := a.name == aliceUpdate.speaker || a.name == "You" } ∈
        (handleWebSocketMessage roster3State 10 (.conversationUpdate aliceUpdate)).agents) :=
  claim_C9_amended_nonsystem_event roster3State 10 aliceUpdate (by decide)

/-- Counterexample to C5 as stated: with the person_alice profile loaded and a
failing request, the failed call does not leave the observable state equal to
the state before it - the partner agent added optimistically before the
request stays in the roster. -/
theorem claim_C5_counterexample :
    (startConversation baseState profilesSample false).isRunning = false ∧
    (startConversation baseState profilesSample false).agents ≠ baseState.agents ∧
    "person_alice" ∈ (startConversation baseState profilesSample false).agents.map Agent.id ∧
    "person_alice" ∉ baseState.agents.map Agent.id ∧
    startConversation baseState profilesSample false ≠ baseState := by
  decide

/-- C5 (amended): when a start-conversation request fails, only the running
flag is reverted; the message list stays cleared and the optimistic roster
update made before the request is not rolled back, so the failure state is
exactly the success state with the running flag forced to false. -/
theorem claim_C5_amended_failure (s : AppState) (profiles : List (String × Profile))
    (hrun : s.isRunning = false) (hconn : s.connectionStatus = .connected) :
    (startConversation s profiles false).isRunning = false ∧
    (startConversation s profiles false).messages = [] ∧
    (startConversation s profiles false).agents = (startConversation s profiles true).agents ∧
    startConversation s profiles false =
      { startConversation s profiles true with isRunning := false } := by
  have hguard : (s.isRunning || !(s.connectionStatus == ConnStatus.connected)) = false := by
    rw [hrun, hconn]; rfl
  unfold startConversation
  rw [hguard]
  simp only [Bool.false_eq_true, if_false]
  cases hp : lookupProfile profiles "person_alice" with
  | none => simp
  | some targetProfile => cases hA : s.agents <;> simp

/-- Witness for the amended C5 at a concrete idle connected state. -/
theorem claim_C5_witness :
    (startConversation baseState profilesSample false).isRunning = false ∧
    (startConversation baseState profilesSample false).messages = [] ∧
    (startConversation baseState profilesSample false).agents =
      (startConversation baseState profilesSample true).agents ∧
    startConversation baseState profilesSample false =
      { startConversation baseState profilesSample true with isRunning := false } :=
  claim_C5_amended_failure baseState profilesSample rfl rfl

/-- C4: a malformed socket payload is dropped: processing it leaves the
message sequence, agent state and connection state unchanged, and a
subsequent well-formed event is processed exactly as if the malformed one
had never arrived. -/
theorem claim_C4_malformed_event_dropped (s : AppState) (n1 n2 : ℚ) (raw raw2 : RawEvent)
    (hbad : parseEventData raw = none) :
    onSocketMessage s n1 raw = s ∧
    (onSocketMessage s n1 raw).connectionStatus = s.connectionStatus ∧
    (onSocketMessage s n1 raw).messages = s.messages ∧
    (onSocketMessage s n1 raw).agents = s.agents ∧
    onSocketMessage (onSocketMessage s n1 raw) n2 raw2 = onSocketMessage s n2 raw2 := by
  have h1 : onSocketMessage s n1 raw = s := by
    simp [onSocketMessage, hbad]
  exact ⟨h1, by rw [h1], by rw [h1], by rw [h1], by rw [h1]⟩

/-- Witness for C4: a concrete malformed frame followed by a well-formed one. -/
theorem claim_C4_witness :
    onSocketMessage baseState 1 (RawEvent.malformed "not json") = baseState ∧
    (onSocketMessage baseState 1 (RawEvent.malformed "not json")).connectionStatus =
      baseState.connectionStatus ∧
    (onSocketMessage baseState 1 (RawEvent.malformed "not json")).messages =
      baseState.messages ∧
    (onSocketMessage baseState 1 (RawEvent.malformed "not json")).agents =
      baseState.agents ∧
    onSocketMessage (onSocketMessage baseState 1 (RawEvent.malformed "not json")) 2
        (RawEvent.wellFormed (.conversationUpdate aliceUpdate)) =
      onSocketMessage baseState 2 (RawEvent.wellFormed (.conversationUpdate aliceUpdate)) :=
  claim_C4_malformed_event_dropped baseState 1 2 (RawEvent.malformed "not json")
    (RawEvent.wellFormed (.conversationUpdate aliceUpdate)) rfl

/-- C3 evaluated at the failing input: Alice speaks at wall time 0 and again
at wall time 3; the bubble then shows the newer message and the clear
scheduled by the older message is still pending (nothing cancels it).  When
that stale clear fires at wall time 5, it deletes Alice's bubble even though
wall time 5 is before time 8, the end of the newer message's 5-second
window - the newer message does not remain displayed for its full window. -/
theorem claim_C3_stale_timer_clears_newer_bubble :
    lookupAgentMessage c3AfterTwoMessages.agentMessages "Alice" = some "hello again" ∧
    c3AfterTwoMessages.timers =
      [{ fireAt := 5, speaker := "Alice" }, { fireAt := 8, speaker := "Alice" }] ∧
    lookupAgentMessage c3AfterStaleTimer.agentMessages "Alice" = none ∧
    (5 : ℚ) < 3 + 5 := by
  refine ⟨rfl, ?_, rfl, by norm_num⟩
  norm_num [c3AfterTwoMessages, bubbleOnNewMessage, bubbleInit, setAgentMessage]

/-- C6: the usePlayback clock keeps 0 ≤ time ≤ duration from initialization,
across frames and across seeks; while playing a frame advances time by
delta × speed clamped at duration, time is monotonically non-decreasing, and
a clock sitting at duration holds at the ceiling without flipping its playing
flag (no auto-stop or loop). -/
theorem claim_C6_playback_clock (duration speed delta t : ℚ) (b : Bool) (st : PlaybackState)
    (hdur : 0 ≤ duration) (hdelta : 0 ≤ delta) (hspeed : 0 ≤ speed)
    (hst : timeInvariant duration st) :
    timeInvariant duration (usePlaybackInit b) ∧
    timeInvariant duration (playbackFrame duration speed st delta) ∧
    st.time ≤ (playbackFrame duration speed st delta).time ∧
    (st.playing = true → st.time + delta * speed ≤ duration →
      (playbackFrame duration speed st delta).time = st.time + delta * speed) ∧
    (st.time = duration →
      (playbackFrame duration speed st delta).time = duration ∧
      (playbackFrame duration speed st delta).playing = st.playing) ∧
    timeInvariant duration (playbackSeek duration st t) := by
  obtain ⟨h0, h1⟩ := hst
  have hds : 0 ≤ delta * speed := mul_nonneg hdelta hspeed
  by_cases hp : st.playing = true
  · have ht : playbackFrame duration speed st delta =
        { st with time := if st.time + delta * speed > duration then duration
                          else st.time + delta * speed } := by
      simp [playbackFrame, hp]
    rw [ht]
    refine ⟨⟨le_refl 0, hdur⟩, ?_, ?_, ?_, ?_,
      ⟨le_max_left 0 _, max_le hdur (min_le_left _ _)⟩⟩
    · constructor <;> dsimp only <;> split_ifs with h2 <;> linarith
    · dsimp only
      split_ifs with h2 <;> linarith
    · intro _ hle
      dsimp only
      rw [if_neg (not_lt.mpr hle)]
    · intro hceil
      constructor
      · dsimp only
        split_ifs with h2
        · rfl
        · rw [not_lt] at h2
          linarith
      · rfl
  · have ht : playbackFrame duration speed st delta = st := by
      simp [playbackFrame, hp]
    rw [ht]
    refine ⟨⟨le_refl 0, hdur⟩, ⟨h0, h1⟩, le_refl _, ?_, ?_,
      ⟨le_max_left 0 _, max_le hdur (min_le_left _ _)⟩⟩
    · intro hpp
      exact absurd hpp hp
    · intro hceil
      exact ⟨hceil, rfl⟩

/-- Witness for C6 at a concrete playing clock below its duration. -/
theorem claim_C6_witness :
    timeInvariant 6 (usePlaybackInit true) ∧
    timeInvariant 6 (playbackFrame 6 2 { playing := true, time := 1 } (1/2)) ∧
    ({ playing := true, time := 1 } : PlaybackState).time ≤
      (playbackFrame 6 2 { playing := true, time := 1 } (1/2)).time ∧
    (({ playing := true, time := 1 } : PlaybackState).playing = true →
      ({ playing := true, time := 1 } : PlaybackState).time + (1/2) * 2 ≤ 6 →
      (playbackFrame 6 2 { playing := true, time := 1 } (1/2)).time =
        ({ playing := true, time := 1 } : PlaybackState).time + (1/2) * 2) ∧
    (({ playing := true, time := 1 } : PlaybackState).time = 6 →
      (playbackFrame 6 2 { playing := true, time := 1 } (1/2)).time = 6 ∧
      (playbackFrame 6 2 { playing := true, time := 1 } (1/2)).playing =
        ({ playing := true, time := 1 } : PlaybackState).playing) ∧
    timeInvariant 6 (playbackSeek 6 { playing := true, time := 1 } 3) :=
  claim_C6_playback_clock 6 2 (1/2) 3 true { playing := true, time := 1 }
    (by norm_num) (by norm_num) (by norm_num) (by norm_num [timeInvariant])

/-- C7: the bubble width is min(0.06 × length + 1.6, 5.8), hence bounded by
5.8 for every length; text longer than 220 characters is displayed as its
first 220 characters followed by an ellipsis marker, shorter text in full. -/
theorem claim_C7_bubble_width_and_truncation (len : ℕ) (s : String) :
    bubbleWidth len = min ((0.06 : ℚ) * len + 1.6) 5.8 ∧
    bubbleWidth len ≤ 5.8 ∧
    (220 < s.length → displayedBubbleText s = s.take 220 ++ "...") ∧
    (s.length ≤ 220 → displayedBubbleText s = s) := by
  refine ⟨by rw [bubbleWidth, mul_comm], by rw [bubbleWidth]; exact min_le_right _ _, ?_, ?_⟩
  · intro h
    rw [displayedBubbleText, if_pos h]
  · intro h
    rw [displayedBubbleText, if_neg (by omega)]

set_option maxRecDepth 4096 in
/-- Witness for C7: the 221-character message is truncated with an ellipsis
and a 300-character message still yields a width of at most 5.8. -/
theorem claim_C7_witness :
    displayedBubbleText longMessage = longMessage.take 220 ++ "..." ∧
    bubbleWidth 300 ≤ 5.8 :=
  ⟨(claim_C7_bubble_width_and_truncation 300 longMessage).2.2.1 (by decide),
   (claim_C7_bubble_width_and_truncation 300 longMessage).2.1⟩

/-- C10: the De Casteljau cubic Bezier evaluation returns the first control
point at parameter 0 and the last at parameter 1; consequently a transit
orb's curved path, built on the two raised inner control points, begins
exactly at the sender position and ends exactly at the receiver position for
every position pair and arc height. -/
theorem claim_C10_bezier_endpoints (a b c d : Vec3) (p q : Vec3) (height : ℝ) :
    bezier3 a b c d 0 = a ∧
    bezier3 a b c d 1 = d ∧
    bezier3 p (orbMid1 p q height) (orbMid2 p q height) q 0 = p ∧
    bezier3 p (orbMid1 p q height) (orbMid2 p q height) q 1 = q := by
  refine ⟨?_, ?_, ?_, ?_⟩ <;>
    · simp only [bezier3, vec3Lerp, lerp, orbMid1, orbMid2, Prod.ext_iff]
      refine ⟨?_, ?_, ?_⟩ <;> ring

/-- C1: with a positive transit duration, the orb is absent exactly when the
simulation time is before emission or after arrival; whenever it renders, its
position is the De Casteljau Bezier evaluation at the normalized progress
over the four control points; at time bornAt + duration / 2 it renders at
the Bezier evaluation at one half; and the two inner control points are the
straight-line interpolations weighted two-thirds toward sender and receiver
respectively, raised to the arc height. -/
theorem claim_C1_message_orb_visibility (fromPos toPos : Vec3) (height bornAt dur now : ℝ)
    (hd : 0 < dur) :
    (messageOrb fromPos toPos bornAt dur height now = none ↔
      (now < bornAt ∨ bornAt + dur < now)) ∧
    (∀ p, messageOrb fromPos toPos bornAt dur height now = some p →
      p = bezier3 fromPos (orbMid1 fromPos toPos height) (orbMid2 fromPos toPos height) toPos
            ((now - bornAt) / dur)) ∧
    (messageOrb fromPos toPos bornAt dur height (bornAt + dur / 2) =
      some (bezier3 fromPos (orbMid1 fromPos toPos height) (orbMid2 fromPos toPos height) toPos
            (1 / 2))) ∧
    orbMid1 fromPos toPos height =
      ((vec3Lerp fromPos toPos (1 / 3)).1, height, (vec3Lerp fromPos toPos (1 / 3)).2.2) ∧
    orbMid2 fromPos toPos height =
      ((vec3Lerp fromPos toPos (2 / 3)).1, height, (vec3Lerp fromPos toPos (2 / 3)).2.2) := by
  have hiff : ((now - bornAt) / dur < 0 ∨ (now - bornAt) / dur > 1) ↔
      (now < bornAt ∨ bornAt + dur < now) := by
    rw [div_lt_iff₀ hd, gt_iff_lt, lt_div_iff₀ hd]
    constructor
    · rintro (h | h)
      · left; linarith
      · right; linarith
    · rintro (h | h)
      · left; linarith
      · right; linarith
  refine ⟨?_, ?_, ?_, ?_, ?_⟩
  · simp only [messageOrb]
    by_cases hc : ((now - bornAt) / dur < 0 ∨ (now - bornAt) / dur > 1)
    · rw [if_pos hc]
      simp [hiff.mp hc]
    · rw [if_neg hc]
      simp [(not_congr hiff).mp hc]
  · intro p hp
    simp only [messageOrb] at hp
    by_cases hc : ((now - bornAt) / dur < 0 ∨ (now - bornAt) / dur > 1)
    · rw [if_pos hc] at hp
      exact absurd hp (by simp)
    · rw [if_neg hc] at hp
      exact (Option.some.inj hp).symm
  · have h2 : (bornAt + dur / 2 - bornAt) / dur = 1 / 2 := by
      field_simp
      ring
    simp only [messageOrb, h2]
    rw [if_neg (by norm_num)]
  · simp only [orbMid1, vec3Lerp, lerp, Prod.ext_iff]
    refine ⟨?_, ?_, ?_⟩ <;> ring
  · simp only [orbMid2, vec3Lerp, lerp, Prod.ext_iff]
    refine ⟨?_, ?_, ?_⟩ <;> ring

/-- Witness for C1 at a concrete message: emitted at time 0 with duration 4,
observed at time 2, travelling between two concrete ring positions. -/
theorem claim_C1_witness :
    (messageOrb ((0 : ℝ), 0, 0) ((6 : ℝ), 0, 0) 0 4 (3 / 2) 2 = none ↔
      ((2 : ℝ) < 0 ∨ (0 : ℝ) + 4 < 2)) ∧
    (∀ p, messageOrb ((0 : ℝ), 0, 0) ((6 : ℝ), 0, 0) 0 4 (3 / 2) 2 = some p →
      p = bezier3 ((0 : ℝ), 0, 0) (orbMid1 ((0 : ℝ), 0, 0) ((6 : ℝ), 0, 0) (3 / 2))
            (orbMid2 ((0 : ℝ), 0, 0) ((6 : ℝ), 0, 0) (3 / 2)) ((6 : ℝ), 0, 0)
            (((2 : ℝ) - 0) / 4)) ∧
    (messageOrb ((0 : ℝ), 0, 0) ((6 : ℝ), 0, 0) 0 4 (3 / 2) ((0 : ℝ) + 4 / 2) =
      some (bezier3 ((0 : ℝ), 0, 0) (orbMid1 ((0 : ℝ), 0, 0) ((6 : ℝ), 0, 0) (3 / 2))
            (orbMid2 ((0 : ℝ), 0, 0) ((6 : ℝ), 0, 0) (3 / 2)) ((6 : ℝ), 0, 0) (1 / 2))) ∧
    orbMid1 ((0 : ℝ), 0, 0) ((6 : ℝ), 0, 0) (3 / 2) =
      ((vec3Lerp ((0 : ℝ), 0, 0) ((6 : ℝ), 0, 0) (1 / 3)).1, (3 : ℝ) / 2,
        (vec3Lerp ((0 : ℝ), 0, 0) ((6 : ℝ), 0, 0) (1 / 3)).2.2) ∧
    orbMid2 ((0 : ℝ), 0, 0) ((6 : ℝ), 0, 0) (3 / 2) =
      ((vec3Lerp ((0 : ℝ), 0, 0) ((6 : ℝ), 0, 0) (2 / 3)).1, (3 : ℝ) / 2,
        (vec3Lerp ((0 : ℝ), 0, 0) ((6 : ℝ), 0, 0) (2 / 3)).2.2) :=
  claim_C1_message_orb_visibility ((0 : ℝ), 0, 0) ((6 : ℝ), 0, 0) (3 / 2) 0 4 2 (by norm_num)

/-- Association lists whose keys are duplicate-free bind each present key to
exactly one value. -/
theorem exists_unique_value_of_nodup_keys {α : Type u} {β : Type v} (l : List (α × β))
    (hnd : (l.map Prod.fst).Nodup) (a : α) (ha : a ∈ l.map Prod.fst) :
    ∃! v, (a, v) ∈ l := by
  induction l with
  | nil => simp at ha
  | cons hd tl ih =>
    simp only [List.map_cons, List.nodup_cons] at hnd
    obtain ⟨hhd, htl⟩ := hnd
    by_cases hah : a = hd.1
    · have hpair : (a, hd.2) = hd := by rw [hah]
      refine ⟨hd.2, hpair ▸ List.mem_cons_self _ _, ?_⟩
      intro w hw
      rcases List.mem_cons.mp hw with h | h
      · exact congrArg Prod.snd h.symm ▸ rfl
      · exact absurd (hah ▸ List.mem_map_of_mem Prod.fst h) hhd
    · have ha' : a ∈ tl.map Prod.fst := by
        rcases List.mem_cons.mp ha with h | h
        · exact absurd h hah
        · exact h
      obtain ⟨v, hv, huniq⟩ := ih htl ha'
      refine ⟨v, List.mem_cons_of_mem _ hv, ?_⟩
      intro w hw
      rcases List.mem_cons.mp hw with h | h
      · exact absurd (congrArg Prod.fst h) hah
      · exact huniq w h

/-- Distinct indices below the roster size produce distinct ring positions:
the circle map θ to (cos θ · r, y, sin θ · r) with θ = (i / n) · TAU is
injective on indices 0 ≤ i < n when the radius is positive. -/
theorem circle_point_inj (r : ℝ) (hr : 0 < r) (n : ℕ) (i j : ℕ) (hi : i < n) (hj : j < n)
    (h : polarToVec3 r ((i : ℝ) / (n : ℝ) * TAU) 0 = polarToVec3 r ((j : ℝ) / (n : ℝ) * TAU) 0) :
    i = j := by
  have hn0 : 0 < n := Nat.lt_of_le_of_lt (Nat.zero_le i) hi
  have hn : (0 : ℝ) < n := by exact_mod_cast hn0
  simp only [polarToVec3, Prod.mk.injEq] at h
  obtain ⟨hc, -, hs⟩ := h
  have hc' : Real.cos ((i : ℝ) / n * TAU) = Real.cos ((j : ℝ) / n * TAU) :=
    mul_right_cancel₀ (ne_of_gt hr) hc
  have hs' : Real.sin ((i : ℝ) / n * TAU) = Real.sin ((j : ℝ) / n * TAU) :=
    mul_right_cancel₀ (ne_of_gt hr) hs
  have h1 : Real.cos ((i : ℝ) / n * TAU - (j : ℝ) / n * TAU) = 1 := by
    rw [Real.cos_sub, hc', hs']
    nlinarith [Real.sin_sq_add_cos_sq ((j : ℝ) / n * TAU)]
  obtain ⟨k, hk⟩ := (Real.cos_eq_one_iff _).mp h1
  have hθ : (i : ℝ) / n * TAU - (j : ℝ) / n * TAU = (((i : ℝ) - j) / n) * (2 * Real.pi) := by
    rw [TAU]
    ring
  have hkn : (k : ℝ) * n = (i : ℝ) - j := by
    rw [hθ] at hk
    have h2π : (0 : ℝ) < 2 * Real.pi := by positivity
    have hk' : (k : ℝ) = ((i : ℝ) - j) / n := mul_right_cancel₀ (ne_of_gt h2π) hk
    rw [hk']
    field_simp
  have hkn' : k * (n : ℤ) = (i : ℤ) - j := by exact_mod_cast hkn
  have hiz : (i : ℤ) < n := by exact_mod_cast hi
  have hjz : (j : ℤ) < n := by exact_mod_cast hj
  have hnz : (0 : ℤ) < n := by exact_mod_cast hn0
  have hi0 : (0 : ℤ) ≤ i := Int.natCast_nonneg i
  have hj0 : (0 : ℤ) ≤ j := Int.natCast_nonneg j
  have hk0 : k = 0 := by
    by_contra hk0
    rcases lt_or_gt_of_ne hk0 with hneg | hpos
    · have hle : k ≤ -1 := by omega
      have := mul_le_mul_of_nonneg_right hle hnz.le
      linarith
    · have hle : (1 : ℤ) ≤ k := by omega
      have := mul_le_mul_of_nonneg_right hle hnz.le
      linarith
  rw [hk0, zero_mul] at hkn'
  omega

/-- C2: for a nonempty duplicate-free roster and a positive ring radius, the
circular layout maps the agent at index i to the point
(cos(i/N · TAU) · r, 0, sin(i/N · TAU) · r) with N the roster size (the
`max` guard collapses to the size, so a single-agent roster sits at angle 0
with no division by zero); the assignment lists exactly the roster
identifiers in order, every assigned point lies on the ground plane at
distance r from the origin, the assigned points are pairwise distinct, every
agent has exactly one position, and a single-agent roster places its agent at
(r, 0, 0). -/
theorem claim_C2_circle_layout (ids : List String) (r : ℝ)
    (hne : ids ≠ []) (hr : 0 < r) (hnodup : ids.Nodup) :
    useCircleLayout ids r =
      ids.enum.map (fun ia =>
        (ia.2, ((Real.cos ((ia.1 : ℝ) / (ids.length : ℝ) * TAU) * r, 0,
                 Real.sin ((ia.1 : ℝ) / (ids.length : ℝ) * TAU) * r) : Vec3))) ∧
    (useCircleLayout ids r).map Prod.fst = ids ∧
    (∀ p ∈ useCircleLayout ids r, p.2.2.1 = 0 ∧
      Real.sqrt (p.2.1 ^ 2 + p.2.2.1 ^ 2 + p.2.2.2 ^ 2) = r) ∧
    ((useCircleLayout ids r).map Prod.snd).Nodup ∧
    (∀ a ∈ ids, ∃! v, (a, v) ∈ useCircleLayout ids r) ∧
    (∀ id0, ids = [id0] → useCircleLayout ids r = [(id0, (r, 0, 0))]) := by
  have hlen : 0 < ids.length := List.length_pos.mpr hne
  have hmax : max ids.length 1 = ids.length := max_eq_left hlen
  have hA : useCircleLayout ids r =
      ids.enum.map (fun ia =>
        (ia.2, ((Real.cos ((ia.1 : ℝ) / (ids.length : ℝ) * TAU) * r, 0,
                 Real.sin ((ia.1 : ℝ) / (ids.length : ℝ) * TAU) * r) : Vec3))) := by
    simp only [useCircleLayout, hmax, polarToVec3]
  have hkeys : (useCircleLayout ids r).map Prod.fst = ids := by
    rw [hA, List.map_map]
    exact List.enum_map_snd ids
  have henum : ids.enum.Nodup := (List.nodup_enum_map_fst ids).of_map
  refine ⟨hA, hkeys, ?_, ?_, ?_, ?_⟩
  · intro p hp
    rw [hA] at hp
    obtain ⟨ia, -, rfl⟩ := List.mem_map.mp hp
    refine ⟨rfl, ?_⟩
    have hsum : (Real.cos ((ia.1 : ℝ) / (ids.length : ℝ) * TAU) * r) ^ 2 + (0 : ℝ) ^ 2 +
        (Real.sin ((ia.1 : ℝ) / (ids.length : ℝ) * TAU) * r) ^ 2 = r ^ 2 := by
      nlinarith [Real.sin_sq_add_cos_sq ((ia.1 : ℝ) / (ids.length : ℝ) * TAU)]
    dsimp only
    rw [hsum, Real.sqrt_sq hr.le]
  · rw [hA, List.map_map]
    apply List.Nodup.map_on ?_ henum
    intro x hx y hy hxy
    dsimp only [Function.comp] at hxy
    obtain ⟨hxb, hxv⟩ := List.get?_eq_some.mp (List.mem_enum_iff_get?.mp hx)
    obtain ⟨hyb, hyv⟩ := List.get?_eq_some.mp (List.mem_enum_iff_get?.mp hy)
    have h12 : x.1 = y.1 := circle_point_inj r hr ids.length x.1 y.1 hxb hyb hxy
    have hfin : (⟨x.1, hxb⟩ : Fin ids.length) = ⟨y.1, hyb⟩ := Fin.ext h12
    have h22 : x.2 = y.2 := by rw [← hxv, ← hyv, hfin]
    exact Prod.ext h12 h22
  · intro a ha
    exact exists_unique_value_of_nodup_keys _ (by rw [hkeys]; exact hnodup) a
      (by rw [hkeys]; exact ha)
  · intro id0 h0
    subst h0
    norm_num [useCircleLayout, polarToVec3, List.enum_cons, List.enumFrom_nil]

/-- Witness for C2 at the concrete two-agent roster with the default radius. -/
theorem claim_C2_witness :
    useCircleLayout ["a", "b"] 6 =
      (["a", "b"] : List String).enum.map (fun ia =>
        (ia.2, ((Real.cos ((ia.1 : ℝ) / (((["a", "b"] : List String).length : ℕ) : ℝ) * TAU) * 6,
                 0,
                 Real.sin ((ia.1 : ℝ) / (((["a", "b"] : List String).length : ℕ) : ℝ) * TAU) * 6)
           : Vec3))) ∧
    (useCircleLayout ["a", "b"] 6).map Prod.fst = ["a", "b"] ∧
    (∀ p ∈ useCircleLayout ["a", "b"] 6, p.2.2.1 = 0 ∧
      Real.sqrt (p.2.1 ^ 2 + p.2.2.1 ^ 2 + p.2.2.2 ^ 2) = 6) ∧
    ((useCircleLayout ["a", "b"] 6).map Prod.snd).Nodup ∧
    (∀ a ∈ (["a", "b"] : List String), ∃! v, (a, v) ∈ useCircleLayout ["a", "b"] 6) ∧
    (∀ id0, (["a", "b"] : List String) = [id0] →
      useCircleLayout ["a", "b"] 6 = [(id0, (6, 0, 0))]) :=
  claim_C2_circle_layout ["a", "b"] 6 (by simp) (by norm_num) (by simp)

end A2A
